import Mathlib

/-!
Shallow embedding of the resilient WebSocket streaming client in
`src/sdk/core/lighter-ws.js` (class `LighterWS`), and proofs of the
specification claims about it.

Modelling conventions:
* JS `Map` (insertion-ordered, unique keys) becomes an association list
  `List (String × List Nat)`; handlers are opaque and represented by `Nat` ids.
* `this.reconnectAttempts` is a JS number that is either a natural number or
  `Infinity` (set by `disconnect()`); it is modelled as `Option Nat` with
  `none` standing for `Infinity`.
* Timestamps (`Date.now()`) are `Int` milliseconds.
* The transport (`this.ws.send`) may throw; where an operation performs a wire
  send, the model takes the outcome of each attempted send as a `Bool`
  parameter (or a list of them for loops), `true` meaning the send succeeded.
* Each operation returns its updated state together with the list of frames
  actually written to the wire.
-/

/-- An outbound JSON frame, as built by `lighter-ws.js`:
`{type, channel?, token?, auth?}`. -/
structure Frame where
  type : String
  channel : Option String := none
  token : Option String := none
  auth : Option String := none
deriving Repr, DecidableEq

/-- The mutable fields of a `LighterWS` instance (constructor, lines 5-24). -/
structure WSState where
  authToken : Option String := none
  subscriptions : List (String × List Nat) := []
  reconnectAttempts : Option Nat := some 0
  reconnectDelay : Nat := 1000
  maxReconnectDelay : Nat := 60000
  isConnected : Bool := false
  shouldReconnect : Bool := true
  isAuthenticated : Bool := false
  messageQueue : List Frame := []
  maxQueueSize : Nat := 100
  heartbeatActive : Bool := false
  heartbeatIntervalMs : Nat := 30000
  lastPongTime : Int := 0
  pendingReconnectTimer : Bool := false
deriving Repr, DecidableEq

/-- `Map.get` on the subscriptions map: first entry with the given key. -/
def mapGet (subs : List (String × List Nat)) (k : String) : Option (List Nat) :=
  match subs with
  | [] => none
  | kv :: rest => if kv.1 = k then some kv.2 else mapGet rest k

/-- `if (!map.has(k)) map.set(k, []); map.get(k).push(cb)` — append a handler
to an existing key's list, or add the key at the end (JS `Map` insertion
order). -/
def mapAppend (subs : List (String × List Nat)) (k : String) (cb : Nat) :
    List (String × List Nat) :=
  if (mapGet subs k).isSome then
    subs.map (fun kv => if kv.1 = k then (kv.1, kv.2 ++ [cb]) else kv)
  else subs ++ [(k, [cb])]

/-- `LighterWS.send` (lines 171-194). When disconnected the frame is queued,
evicting the oldest entry if the queue is at capacity. When connected the
frame goes to the wire; `wireOk` is whether `this.ws.send` succeeded, and on
failure the frame is re-queued if there is room. Returns the new state and
the frames written to the wire. -/
def send (st : WSState) (wireOk : Bool) (m : Frame) : WSState × List Frame :=
  if st.isConnected = false then
    if st.messageQueue.length < st.maxQueueSize then
      ({ st with messageQueue := st.messageQueue ++ [m] }, [])
    else
      ({ st with messageQueue := st.messageQueue.drop 1 ++ [m] }, [])
  else
    if wireOk then (st, [m])
    else if st.messageQueue.length < st.maxQueueSize then
      ({ st with messageQueue := st.messageQueue ++ [m] }, [])
    else (st, [])

/-- Folding `send` over a list of frames while disconnected (a sequence of
enqueue operations). -/
def enqueueAll (st : WSState) (ms : List Frame) : WSState :=
  ms.foldl (fun s m => (send s true m).1) st

/-- Whether `subscribe`'s marketId guard rejects the argument
(`marketId === undefined || marketId === null || marketId === ''`,
lines 308-312). `none` stands for both `undefined` and `null`. -/
def invalidMarketId (marketId : Option String) : Bool :=
  match marketId with
  | none => true
  | some s => s = ""

/-- `LighterWS.subscribe` (lines 307-341): validate marketId, store the
handler under the slash-separated key, then unconditionally send a
`subscribe` frame (with `auth` attached when provided). -/
def subscribe (st : WSState) (wireOk : Bool) (channel : String)
    (marketId : Option String) (cb : Nat) (auth : Option String) :
    WSState × List Frame :=
  if invalidMarketId marketId then (st, [])
  else
    let key := channel ++ "/" ++ marketId.getD ""
    let st1 := { st with subscriptions := mapAppend st.subscriptions key cb }
    send st1 wireOk { type := "subscribe", channel := some key, auth := auth }

/-- `LighterWS.resubscribeAll` (lines 356-368): one `subscribe` frame per
map entry, in iteration order. All sends here happen while connected with a
working transport (the model of the `onopen` path). -/
def resubscribeAll (st : WSState) : List Frame :=
  st.subscriptions.map (fun kv => { type := "subscribe", channel := some kv.1 })

/-- The `onopen` handler (lines 46-72): set connected, reset the attempt
counter, refresh `lastPongTime`, send an `auth` frame when a token is held,
resubscribe every registry entry, flush the queue, start the heartbeat.
All wire sends succeed on this path. -/
def onopen (st : WSState) (now : Int) : WSState × List Frame :=
  let st1 := { st with isConnected := true, reconnectAttempts := some 0,
                       lastPongTime := now }
  let authFrames : List Frame :=
    match st1.authToken with
    | some t => [{ type := "auth", token := some t }]
    | none => []
  let subFrames : List Frame :=
    if st1.subscriptions.length > 0 then resubscribeAll st1 else []
  let qFrames := st1.messageQueue
  ({ st1 with messageQueue := [], heartbeatActive := true },
   authFrames ++ subFrames ++ qFrames)

/-- `LighterWS.disconnect` (lines 99-119): clear the flags, stop the
heartbeat, set the attempt counter to `Infinity`, clear subscriptions and
queue. The `setTimeout` scheduled by `attemptReconnect` is not referenced by
any field of the class, so a pending reconnect timer is left as it is. -/
def disconnect (st : WSState) : WSState :=
  { st with isConnected := false, shouldReconnect := false,
            isAuthenticated := false, reconnectAttempts := none,
            heartbeatActive := false, subscriptions := [],
            messageQueue := [] }

/-- `reconnectAttempts >= maxReconnectAttempts` with
`maxReconnectAttempts = Infinity`: true exactly when the counter itself is
`Infinity`. -/
def atMaxAttempts (a : Option Nat) : Bool :=
  match a with
  | none => true
  | some _ => false

/-- `LighterWS.attemptReconnect` (lines 121-143): guard on `shouldReconnect`
and the attempt cap, increment the counter, compute
`min(reconnectDelay * 2^(attempts-1), maxReconnectDelay)` and schedule a
timer for that delay. Returns the scheduled delay, or `none` when no timer
is set. -/
def attemptReconnect (st : WSState) : WSState × Option Nat :=
  if st.shouldReconnect = false ∨ atMaxAttempts st.reconnectAttempts then
    (st, none)
  else
    match st.reconnectAttempts with
    | none => (st, none)
    | some a =>
      let delay := min (st.reconnectDelay * 2 ^ (a + 1 - 1)) st.maxReconnectDelay
      ({ st with reconnectAttempts := some (a + 1),
                 pendingReconnectTimer := true }, some delay)

/-- The `onclose` handler (lines 83-95): mark disconnected and
unauthenticated, stop the heartbeat, and reconnect only when not manually
disconnected. -/
def onCloseHandler (st : WSState) : WSState × Option Nat :=
  let st1 := { st with isConnected := false, isAuthenticated := false,
                       heartbeatActive := false }
  if st1.shouldReconnect then attemptReconnect st1 else (st1, none)

/-- The body of the reconnect timer (lines 136-142): `connect()` is invoked
only when `shouldReconnect` still holds at firing time. -/
def reconnectTimerFires (st : WSState) : Bool :=
  st.shouldReconnect

/-- What one heartbeat tick does. -/
inductive HBAction where
  | forceClose
  | ping
  | skip
deriving Repr, DecidableEq

/-- One tick of the interval installed by `startHeartbeat` (lines 145-162):
while connected, force the socket closed if no pong was seen for more than
90000 ms, otherwise send a `ping` frame. -/
def heartbeatTick (st : WSState) (now : Int) : HBAction :=
  if st.isConnected then
    if now - st.lastPongTime > 90000 then HBAction.forceClose
    else HBAction.ping
  else HBAction.skip

/-- `LighterWS.flushMessageQueue` (lines 196-201) together with the connected
branch of `send`: the loop shifts the front frame and sends it; a failed send
re-queues that frame at the back of the queue and the loop continues. The
list `outcomes` gives the result of each successive `this.ws.send` attempt
and bounds the number of observed loop iterations. Returns the frames
written to the wire, in wire order, and the final queue. -/
def flushSteps (outcomes : List Bool) (q : List Frame) :
    List Frame × List Frame :=
  match outcomes, q with
  | _, [] => ([], [])
  | [], q => ([], q)
  | ok :: rest, m :: q =>
    if ok then
      let r := flushSteps rest q
      (m :: r.1, r.2)
    else flushSteps rest (q ++ [m])

/-- An inbound message after `JSON.parse`, reduced to the fields
`handleMessage` inspects. -/
structure InMsg where
  type : Option String := none
  channel : Option String := none
  hasError : Bool := false
deriving Repr, DecidableEq

/-- `LighterWS._routeToCallbacks` lookup (lines 285-293): exact key first,
then, when the channel contains a colon, the first colon replaced by a
slash. -/
def replaceFirstColonAux : List Char → List Char
  | [] => []
  | c :: cs => if c = ':' then '/' :: cs else c :: replaceFirstColonAux cs

/-- JS `serverChannel.replace(':', '/')` — only the first occurrence. -/
def replaceFirstColon (s : String) : String :=
  ⟨replaceFirstColonAux s.data⟩

/-- JS `serverChannel.includes(':')`. -/
def containsColon (s : String) : Bool :=
  s.data.contains ':'

/-- The callback-list resolution of `_routeToCallbacks` (lines 285-293). -/
def routeLookup (subs : List (String × List Nat)) (serverChannel : String) :
    Option (List Nat) :=
  match mapGet subs serverChannel with
  | some cbs => some cbs
  | none =>
    if containsColon serverChannel then
      mapGet subs (replaceFirstColon serverChannel)
    else none

/-- Observable effects of `handleMessage`. `refreshAttempt` and
`authStatusReport` are in the vocabulary so that claims about token refresh
and auth-status callbacks are statable; `handleMessage` itself is translated
from lines 203-283 of the source. -/
inductive HandleEffect where
  | wire (f : Frame)
  | dispatch (cb : Nat) (m : InMsg)
  | refreshAttempt
  | authStatusReport
deriving Repr, DecidableEq

/-- Dispatch step of `_routeToCallbacks` (lines 295-304): every callback on
the resolved subscription is invoked, in registration order. -/
def routeToCallbacks (st : WSState) (serverChannel : String) (m : InMsg) :
    List HandleEffect :=
  match routeLookup st.subscriptions serverChannel with
  | some cbs => cbs.map (fun cb => HandleEffect.dispatch cb m)
  | none => []

/-- JS `messageType.startsWith(pre)`, computed on the character lists. -/
def startsWithStr (s pre : String) : Bool :=
  pre.data.isPrefixOf s.data

/-- `LighterWS.handleMessage` (lines 203-283) for a successfully parsed
object message, dispatching on `message.type`. `now` is `Date.now()` at
receipt. -/
def handleMessage (st : WSState) (m : InMsg) (now : Int) :
    WSState × List HandleEffect :=
  match m.type with
  | some "ping" =>
    ({ st with lastPongTime := now },
     [HandleEffect.wire { type := "pong" }])
  | some "pong" => ({ st with lastPongTime := now }, [])
  | some "connected" => (st, [])
  | some "auth_success" => ({ st with isAuthenticated := true }, [])
  | some "authenticated" => ({ st with isAuthenticated := true }, [])
  | some "auth_failed" => ({ st with isAuthenticated := false }, [])
  | some "auth_error" => ({ st with isAuthenticated := false }, [])
  | some t =>
    if startsWithStr t "subscribed/" then
      match m.channel with
      | some ch => (st, routeToCallbacks st ch m)
      | none => (st, [])
    else if startsWithStr t "update/" then
      match m.channel with
      | some ch => (st, routeToCallbacks st ch m)
      | none => (st, [])
    else if m.hasError then (st, [])
    else
      match m.channel with
      | some ch => (st, routeToCallbacks st ch m)
      | none => (st, [])
  | none =>
    if m.hasError then (st, [])
    else
      match m.channel with
      | some ch => (st, routeToCallbacks st ch m)
      | none => (st, [])

/-- Number of `subscribe` frames for a given channel key in a frame list. -/
def countSubscribes : List Frame → String → Nat
  | [], _ => 0
  | f :: fs, k =>
    (if f.type = "subscribe" ∧ f.channel = some k then 1 else 0) +
      countSubscribes fs k

/-- Number of token-refresh attempts among handler effects. -/
def countRefreshAttempts (es : List HandleEffect) : Nat :=
  (es.filter (fun e => e = HandleEffect.refreshAttempt)).length

/-- `new LighterWS(wsUrl, authToken)` — the constructor's field initialisation
(lines 5-24); the URL does not affect any modelled behaviour. -/
def mkLighterWS (authToken : Option String) : WSState :=
  { authToken := authToken }

/-! ### Helper lemmas -/

theorem send_disconnected_inv (st : WSState) (m : Frame)
    (hconn : st.isConnected = false) (hcap : 0 < st.maxQueueSize)
    (hlen : st.messageQueue.length ≤ st.maxQueueSize) :
    (send st true m).1.isConnected = false ∧
    (send st true m).1.maxQueueSize = st.maxQueueSize ∧
    (send st true m).1.messageQueue.length ≤ st.maxQueueSize := by
  unfold send
  by_cases h : st.messageQueue.length < st.maxQueueSize
  · simp [hconn, h]
    omega
  · simp [hconn, h]
    omega

theorem enqueueAll_inv (ms : List Frame) : ∀ st : WSState,
    st.isConnected = false → 0 < st.maxQueueSize →
    st.messageQueue.length ≤ st.maxQueueSize →
    (enqueueAll st ms).isConnected = false ∧
    (enqueueAll st ms).maxQueueSize = st.maxQueueSize ∧
    (enqueueAll st ms).messageQueue.length ≤ st.maxQueueSize := by
  induction ms with
  | nil => exact fun st h1 _ h3 => ⟨h1, rfl, h3⟩
  | cons m ms ih =>
    intro st h1 h2 h3
    have hs := send_disconnected_inv st m h1 h2 h3
    have hrec := ih (send st true m).1 hs.1 (hs.2.1 ▸ h2) (hs.2.1 ▸ hs.2.2)
    have heq : enqueueAll st (m :: ms) = enqueueAll (send st true m).1 ms := rfl
    rw [heq]
    exact ⟨hrec.1, hrec.2.1.trans hs.2.1, hs.2.1 ▸ hrec.2.2⟩

/-! ### Claims -/

/-- C10: a `subscribe` call whose marketId is `undefined`, `null` or the
empty string is a complete no-op: the state (registry and queue included) is
unchanged and no frame is sent or queued. -/
theorem subscribe_invalid_marketId_noop (st : WSState) (wireOk : Bool)
    (channel : String) (marketId : Option String) (cb : Nat)
    (auth : Option String)
    (h : marketId = none ∨ marketId = some "") :
    subscribe st wireOk channel marketId cb auth = (st, []) := by
  rcases h with h | h <;> subst h <;> simp [subscribe, invalidMarketId]

/-- Witness for C10 at a concrete input: `marketId = null` on a fresh
client. -/
theorem subscribe_invalid_marketId_noop_witness :
    subscribe (mkLighterWS none) true "order_book" none 0 none =
      (mkLighterWS none, []) :=
  subscribe_invalid_marketId_noop (mkLighterWS none) true "order_book"
    none 0 none (Or.inl rfl)

/-- C3: enqueuing while disconnected never grows the queue beyond
`maxQueueSize`; when the queue is full the oldest frame is evicted and the
new frame is appended (the newest is never dropped), and an arbitrary
sequence of enqueues keeps the bound. -/
theorem queue_bounded_evicts_oldest (st : WSState) (m : Frame)
    (ms : List Frame)
    (hconn : st.isConnected = false) (hcap : 0 < st.maxQueueSize)
    (hlen : st.messageQueue.length ≤ st.maxQueueSize) :
    (send st true m).1.messageQueue.length ≤ st.maxQueueSize ∧
    (st.messageQueue.length = st.maxQueueSize →
      (send st true m).1.messageQueue = st.messageQueue.drop 1 ++ [m]) ∧
    m ∈ (send st true m).1.messageQueue ∧
    (enqueueAll st ms).messageQueue.length ≤ st.maxQueueSize := by
  refine ⟨(send_disconnected_inv st m hconn hcap hlen).2.2, ?_, ?_, ?_⟩
  · intro hfull
    have h : ¬ st.messageQueue.length < st.maxQueueSize := by omega
    simp [send, hconn, h]
  · by_cases h : st.messageQueue.length < st.maxQueueSize <;>
      simp [send, hconn, h]
  · exact (enqueueAll_inv ms st hconn hcap hlen).2.2

/-- Witness for C3 at a concrete input: a full two-slot queue on a
disconnected client evicts the oldest frame. -/
theorem queue_bounded_evicts_oldest_witness :
    (send { mkLighterWS none with
              messageQueue := [{ type := "a" }, { type := "b" }],
              maxQueueSize := 2 } true { type := "c" }).1.messageQueue =
      [{ type := "b" }, { type := "c" }] := by
  have h := queue_bounded_evicts_oldest
    { mkLighterWS none with
        messageQueue := [{ type := "a" }, { type := "b" }],
        maxQueueSize := 2 } { type := "c" } []
    rfl (by decide) (by decide)
  simpa using h.2.1 (by decide)

/-- C4: with reconnection enabled and a finite attempt counter `a`, the
scheduled backoff delay is `min(reconnectDelay * 2^a, maxReconnectDelay)`,
the counter becomes `a+1`, and the delay is non-decreasing from one failure
to the next; after an explicit disconnect (`shouldReconnect = false`) no
timer is scheduled; the counter is reset to 0 by the `onopen` handler, is
set to `Infinity` by `disconnect`, and is never reset to 0 by
`attemptReconnect` itself. -/
theorem reconnect_backoff_policy (st : WSState) (a : Nat) (now : Int) :
    (st.shouldReconnect = true → st.reconnectAttempts = some a →
      (attemptReconnect st).2 =
        some (min (st.reconnectDelay * 2 ^ a) st.maxReconnectDelay) ∧
      (attemptReconnect st).1.reconnectAttempts = some (a + 1) ∧
      min (st.reconnectDelay * 2 ^ a) st.maxReconnectDelay ≤
        min (st.reconnectDelay * 2 ^ (a + 1)) st.maxReconnectDelay) ∧
    (st.shouldReconnect = false → attemptReconnect st = (st, none)) ∧
    (onopen st now).1.reconnectAttempts = some 0 ∧
    (disconnect st).reconnectAttempts = none ∧
    ((attemptReconnect st).1.reconnectAttempts = st.reconnectAttempts ∨
      ∃ b, (attemptReconnect st).1.reconnectAttempts = some (b + 1)) := by
  refine ⟨?_, ?_, rfl, rfl, ?_⟩
  · intro hsr hatt
    refine ⟨by simp [attemptReconnect, hsr, hatt, atMaxAttempts], by simp [attemptReconnect, hsr, hatt, atMaxAttempts], ?_⟩
    refine min_le_min ?_ le_rfl
    exact Nat.mul_le_mul_left _ (Nat.pow_le_pow_right (by norm_num) (Nat.le_succ a))
  · intro hsr
    simp [attemptReconnect, hsr]
  · unfold attemptReconnect
    by_cases hsr : st.shouldReconnect = false
    · simp [hsr]
    · cases hatt : st.reconnectAttempts with
      | none => simp [hsr, hatt, atMaxAttempts]
      | some b =>
        simp [hsr, hatt, atMaxAttempts]

/-- Witness for C4 at a concrete input: first failure on a fresh client
schedules `min(1000 * 2^0, 60000) = 1000` ms and moves the counter to 1. -/
theorem reconnect_backoff_policy_witness :
    (attemptReconnect (mkLighterWS none)).2 = some 1000 ∧
    (attemptReconnect (mkLighterWS none)).1.reconnectAttempts = some 1 := by
  have h := (reconnect_backoff_policy (mkLighterWS none) 0 0).1 rfl rfl
  exact ⟨by simpa using h.1, h.2.1⟩

/-- C5: while nominally connected (with reconnection enabled and a finite
attempt counter), a heartbeat tick at a time more than 3× the heartbeat
interval after the last pong forces the socket closed, and the resulting
close handler schedules a reconnect; at or below the threshold the tick
sends a `ping` frame. -/
theorem heartbeat_liveness (st : WSState) (now : Int) (a : Nat)
    (hconn : st.isConnected = true) (hsr : st.shouldReconnect = true)
    (hatt : st.reconnectAttempts = some a)
    (hint : st.heartbeatIntervalMs = 30000) :
    (now - st.lastPongTime > 3 * (st.heartbeatIntervalMs : Int) →
      heartbeatTick st now = HBAction.forceClose ∧
      ((onCloseHandler st).2).isSome = true) ∧
    (now - st.lastPongTime ≤ 3 * (st.heartbeatIntervalMs : Int) →
      heartbeatTick st now = HBAction.ping) := by
  rw [hint]
  constructor
  · intro h
    have h90 : now - st.lastPongTime > 90000 := by push_cast at h; linarith
    constructor
    · simp [heartbeatTick, hconn, h90]
    · simp [onCloseHandler, hsr, attemptReconnect, hatt, atMaxAttempts]
  · intro h
    have h90 : ¬ now - st.lastPongTime > 90000 := by push_cast at h; linarith
    simp [heartbeatTick, hconn, h90]

/-- Witness for C5 at concrete inputs: a fresh connected client with
`lastPongTime = 0` force-closes at t = 90001 ms (and the close handler
schedules a reconnect) but still pings at t = 90000 ms. -/
theorem heartbeat_liveness_witness :
    heartbeatTick { mkLighterWS none with isConnected := true } 90001 =
      HBAction.forceClose ∧
    ((onCloseHandler { mkLighterWS none with isConnected := true }).2).isSome
      = true ∧
    heartbeatTick { mkLighterWS none with isConnected := true } 90000 =
      HBAction.ping := by
  have h1 := heartbeat_liveness { mkLighterWS none with isConnected := true }
    90001 0 rfl rfl rfl rfl
  have h2 := heartbeat_liveness { mkLighterWS none with isConnected := true }
    90000 0 rfl rfl rfl rfl
  have hgt : (90001 : Int) -
      ({ mkLighterWS none with isConnected := true } : WSState).lastPongTime >
      3 * (({ mkLighterWS none with
                isConnected := true } : WSState).heartbeatIntervalMs : Int) := by
    norm_num [mkLighterWS]
  have hle : (90000 : Int) -
      ({ mkLighterWS none with isConnected := true } : WSState).lastPongTime ≤
      3 * (({ mkLighterWS none with
                isConnected := true } : WSState).heartbeatIntervalMs : Int) := by
    norm_num [mkLighterWS]
  exact ⟨(h1.1 hgt).1, (h1.1 hgt).2, h2.2 hle⟩

/-- `countSubscribes` of a concatenation splits additively. -/
theorem countSubscribes_append (fs gs : List Frame) (k : String) :
    countSubscribes (fs ++ gs) k = countSubscribes fs k + countSubscribes gs k := by
  induction fs with
  | nil => simp [countSubscribes]
  | cons f fs ih => simp [countSubscribes, ih]; omega

/-- A registry with no entry for `k` contributes no `subscribe` frame for
`k` in the resubscription step. -/
theorem countSubscribes_resub_zero (subs : List (String × List Nat))
    (k : String) (h : k ∉ subs.map Prod.fst) :
    countSubscribes
      (subs.map fun kv =>
        ({ type := "subscribe", channel := some kv.1 } : Frame)) k = 0 := by
  induction subs with
  | nil => rfl
  | cons kv rest ih =>
    simp only [List.map_cons, List.mem_cons, not_or] at h
    have hne : kv.1 ≠ k := fun hkk => h.1 hkk.symm
    simp [countSubscribes, hne, ih h.2]

/-- A registry with `Nodup` keys containing `(k, cbs)` contributes exactly
one `subscribe` frame for `k` in the resubscription step. -/
theorem countSubscribes_resub_one (subs : List (String × List Nat))
    (k : String) (cbs : List Nat)
    (hnd : (subs.map Prod.fst).Nodup) (hk : (k, cbs) ∈ subs) :
    countSubscribes
      (subs.map fun kv =>
        ({ type := "subscribe", channel := some kv.1 } : Frame)) k = 1 := by
  induction subs with
  | nil => cases hk
  | cons kv rest ih =>
    simp only [List.map_cons, List.nodup_cons] at hnd
    rcases List.mem_cons.mp hk with hk1 | hk1
    · have hkey : kv.1 = k := by rw [← hk1]
      have hrest : k ∉ rest.map Prod.fst := hkey ▸ hnd.1
      simp [countSubscribes, hkey, countSubscribes_resub_zero rest k hrest]
    · have hne : kv.1 ≠ k := by
        intro hkk
        exact hnd.1 (hkk ▸ (List.mem_map.mpr ⟨(k, cbs), hk1, rfl⟩))
      simp [countSubscribes, hne, ih hnd.2 hk1]

/-- C1 (amended): on a transition into `Open`, the resubscription step sends
exactly one `subscribe` frame per distinct active channel key, regardless of
how many handlers are registered on it, and when the client holds an auth
token a single `auth` frame precedes every other frame; the total count of
`subscribe` frames for a key over the whole `onopen` handler is 1 plus the
number of matching `subscribe` frames that were sitting in the outbound
queue and are re-sent by the flush. -/
theorem open_one_subscribe_per_key (st : WSState) (now : Int)
    (k : String) (cbs : List Nat)
    (hnd : (st.subscriptions.map Prod.fst).Nodup)
    (hk : (k, cbs) ∈ st.subscriptions) :
    countSubscribes (onopen st now).2 k =
      1 + countSubscribes st.messageQueue k ∧
    (∀ t, st.authToken = some t →
      ∃ l, (onopen st now).2 = { type := "auth", token := some t } :: l) := by
  constructor
  · have hpos : st.subscriptions.length > 0 :=
      List.length_pos.mpr (List.ne_nil_of_mem hk)
    have hresub : countSubscribes (resubscribeAll
        { st with isConnected := true, reconnectAttempts := some 0,
                  lastPongTime := now }) k = 1 :=
      countSubscribes_resub_one st.subscriptions k cbs hnd hk
    simp only [onopen, hpos, if_pos, countSubscribes_append]
    rw [hresub]
    cases st.authToken <;> simp [countSubscribes]
  · intro t ht
    simp [onopen, ht]

/-- Witness for C1 (amended) at a concrete input: one registered key, one
queued non-subscribe frame, an auth token held. -/
theorem open_one_subscribe_per_key_witness :
    countSubscribes
      (onopen { mkLighterWS (some "tok") with
                  subscriptions := [("order_book/1", [0, 1])],
                  messageQueue := [{ type := "ping" }] } 0).2 "order_book/1" =
      1 + countSubscribes [({ type := "ping" } : Frame)] "order_book/1" ∧
    (∃ l, (onopen { mkLighterWS (some "tok") with
                      subscriptions := [("order_book/1", [0, 1])],
                      messageQueue := [{ type := "ping" }] } 0).2 =
      { type := "auth", token := some "tok" } :: l) := by
  have h := open_one_subscribe_per_key
    { mkLighterWS (some "tok") with
        subscriptions := [("order_book/1", [0, 1])],
        messageQueue := [{ type := "ping" }] } 0 "order_book/1" [0, 1]
    (by decide) (by decide)
  exact ⟨h.1, h.2 "tok" rfl⟩

/-- The state of a fresh client after `subscribe('order_book', '1', cb)` is
called while disconnected: the key is registered and the `subscribe` frame
is queued. -/
def c1CexState : WSState :=
  (subscribe (mkLighterWS none) true "order_book" (some "1") 0 none).1

/-- Counterexample to C1 as stated: with one active key whose `subscribe`
frame was queued while disconnected, the `onopen` handler emits two
`subscribe` frames for that key (one from the resubscription step and one
from the queue flush), not exactly one. -/
theorem open_one_subscribe_per_key_cex :
    mapGet c1CexState.subscriptions "order_book/1" = some [0] ∧
    countSubscribes (onopen c1CexState 0).2 "order_book/1" ≠ 1 := by decide

/-- Appending a handler under an existing key updates that key's list. -/
theorem mapGet_update_existing (subs : List (String × List Nat)) (k : String)
    (cb : Nat) (l : List Nat) (h : mapGet subs k = some l) :
    mapGet (subs.map fun kv =>
      if kv.1 = k then (kv.1, kv.2 ++ [cb]) else kv) k = some (l ++ [cb]) := by
  induction subs with
  | nil => cases h
  | cons kv rest ih =>
    by_cases hk : kv.1 = k
    · simp [mapGet, hk] at h
      simp [mapGet, hk, h]
    · simp [mapGet, hk] at h
      simp [mapGet, hk, ih h]

/-- Appending a handler under a key leaves the key sequence unchanged when
the key is applied to entries (the update touches only the value part). -/
theorem keys_update_existing (subs : List (String × List Nat)) (k : String)
    (cb : Nat) :
    (subs.map fun kv =>
      if kv.1 = k then (kv.1, kv.2 ++ [cb]) else kv).map Prod.fst =
      subs.map Prod.fst := by
  induction subs with
  | nil => rfl
  | cons kv rest ih =>
    by_cases hk : kv.1 = k <;> simp [hk, ih]

/-- `mapAppend` on an existing key: the entry grows, the keys stay. -/
theorem mapAppend_existing (subs : List (String × List Nat)) (k : String)
    (cb : Nat) (l : List Nat) (h : mapGet subs k = some l) :
    mapGet (mapAppend subs k cb) k = some (l ++ [cb]) ∧
    (mapAppend subs k cb).map Prod.fst = subs.map Prod.fst := by
  unfold mapAppend
  rw [h]
  exact ⟨mapGet_update_existing subs k cb l h, keys_update_existing subs k cb⟩

/-- C2 (amended): a further `subscribe` call for a key already in the
registry appends the handler to that key's callback list without creating a
duplicate registry entry (the key sequence is unchanged), but — unlike the
claim — it still sends a `subscribe` control frame on the wire on every
call. -/
theorem subscribe_existing_key (st : WSState) (channel mid : String)
    (cb : Nat) (auth : Option String) (l : List Nat)
    (hmid : mid ≠ "")
    (hconn : st.isConnected = true)
    (hk : mapGet st.subscriptions (channel ++ "/" ++ mid) = some l) :
    mapGet (subscribe st true channel (some mid) cb auth).1.subscriptions
        (channel ++ "/" ++ mid) = some (l ++ [cb]) ∧
    (subscribe st true channel (some mid) cb auth).1.subscriptions.map
        Prod.fst = st.subscriptions.map Prod.fst ∧
    (subscribe st true channel (some mid) cb auth).2 =
      [{ type := "subscribe", channel := some (channel ++ "/" ++ mid),
         auth := auth }] := by
  have hv : invalidMarketId (some mid) = false := by
    simp [invalidMarketId, hmid]
  have hm := mapAppend_existing st.subscriptions (channel ++ "/" ++ mid) cb l hk
  refine ⟨?_, ?_, ?_⟩ <;> simp [subscribe, hv, send, hconn, hm.1, hm.2]

/-- A connected client whose registry already holds `order_book/1` with one
handler. -/
def c2BaseState : WSState :=
  { mkLighterWS none with isConnected := true,
                          subscriptions := [("order_book/1", [0])] }

/-- Witness for C2 (amended) at a concrete input: second subscribe on
`order_book/1` while connected. -/
theorem subscribe_existing_key_witness :
    mapGet (subscribe c2BaseState true "order_book"
        (some "1") 1 none).1.subscriptions "order_book/1" = some [0, 1] ∧
    (subscribe c2BaseState true "order_book" (some "1") 1 none).2 =
      [{ type := "subscribe", channel := some ("order_book" ++ "/" ++ "1"),
         auth := none }] := by
  have h := subscribe_existing_key c2BaseState
    "order_book" "1" 1 none [0] (by decide) rfl (by decide)
  exact ⟨by simpa using h.1, h.2.2⟩

/-- The state of a connected client after one `subscribe('order_book','1')`
call. -/
def c2CexState : WSState :=
  (subscribe { mkLighterWS none with isConnected := true } true "order_book"
    (some "1") 0 none).1

/-- Counterexample to C2 as stated: a second `subscribe` call for a key
already in the registry still sends a `subscribe` control frame on the
wire (the frame list is non-empty), instead of only appending the
handler. -/
theorem subscribe_existing_key_cex :
    mapGet c2CexState.subscriptions "order_book/1" = some [0] ∧
    (subscribe c2CexState true "order_book" (some "1") 1 none).2 ≠ [] := by
  decide

/-- When every send succeeds, the flush drains the queue in FIFO order. -/
theorem flushSteps_all_ok (q : List Frame) :
    flushSteps (List.replicate q.length true) q = (q, []) := by
  induction q with
  | nil => rfl
  | cons m q ih => simp [flushSteps, ih]

/-- No frame is lost by a flush: the wire frames followed by the final queue
are a permutation of the original queue, whatever the send outcomes. -/
theorem flushSteps_perm (outcomes : List Bool) :
    ∀ q : List Frame,
      List.Perm ((flushSteps outcomes q).1 ++ (flushSteps outcomes q).2) q := by
  induction outcomes with
  | nil =>
    intro q
    cases q <;> simp [flushSteps]
  | cons ok rest ih =>
    intro q
    cases q with
    | nil => simp [flushSteps]
    | cons m q' =>
      cases ok with
      | true =>
        simpa [flushSteps] using List.Perm.cons m (ih q')
      | false =>
        simpa [flushSteps] using (ih (q' ++ [m])).trans
          (List.perm_append_singleton m q')

/-- C6 (amended): when every send succeeds the queued frames are drained and
sent in FIFO order; a send failure does not abort the flush — the failed
frame is re-appended at the back of the queue and the loop continues, which
can reorder retried frames, but no frame is dropped: for any sequence of
send outcomes, the frames put on the wire together with the final queue are
a permutation of the original queue. -/
theorem flush_fifo_and_lossless (q : List Frame) (outcomes : List Bool) :
    flushSteps (List.replicate q.length true) q = (q, []) ∧
    List.Perm ((flushSteps outcomes q).1 ++ (flushSteps outcomes q).2) q :=
  ⟨flushSteps_all_ok q, flushSteps_perm outcomes q⟩

/-- Counterexample to C6 as stated: with queue `[a, b]` and the first send
failing, the flush is not aborted — frame `b` is sent before the retried
`a` (wire order `[b, a]`), the final queue is empty rather than the
claimed in-order re-queue `[a, b]`, and frames were sent after the
failure. -/
theorem flush_abort_cex :
    flushSteps [false, true, true] [{ type := "a" }, { type := "b" }] =
      ([{ type := "b" }, { type := "a" }], []) ∧
    (flushSteps [false, true, true]
      [{ type := "a" }, { type := "b" }]).1 ≠ ([] : List Frame) ∧
    (flushSteps [false, true, true]
      [{ type := "a" }, { type := "b" }]).2 ≠
      [{ type := "a" }, { type := "b" }] := by decide

/-- C9 (amended): `disconnect()` stops the heartbeat and clears
`shouldReconnect` together with the state change, but a pending reconnect
timer is left scheduled (the class stores no handle to it); when that stale
timer fires its `shouldReconnect` guard fails so it does not call
`connect()`, and neither a transport close event nor a direct
`attemptReconnect` schedules any reconnect on the closed client. -/
theorem disconnect_terminal (st : WSState) :
    (disconnect st).heartbeatActive = false ∧
    (disconnect st).shouldReconnect = false ∧
    (disconnect st).pendingReconnectTimer = st.pendingReconnectTimer ∧
    reconnectTimerFires (disconnect st) = false ∧
    (onCloseHandler (disconnect st)).2 = none ∧
    (attemptReconnect (disconnect st)).2 = none := by
  refine ⟨rfl, rfl, rfl, rfl, ?_, ?_⟩ <;>
    simp [onCloseHandler, disconnect, attemptReconnect, reconnectTimerFires,
      atMaxAttempts]

/-- A fresh client right after `attemptReconnect` has run: a reconnect
timer is pending. -/
def c9CexState : WSState :=
  (attemptReconnect (mkLighterWS none)).1

/-- Counterexample to C9 as stated: after `disconnect()` on a client with a
pending reconnect timer, the timer is still pending — it is not cancelled
with the transition (only its `shouldReconnect` guard later prevents a
reconnect). -/
theorem disconnect_timer_cex :
    c9CexState.pendingReconnectTimer = true ∧
    (disconnect c9CexState).pendingReconnectTimer = true := by decide

/-- Replacing the first colon in `c ++ ':' :: p` when `c` itself is
colon-free replaces exactly the separator. -/
theorem replaceFirstColonAux_sep (c : List Char) (hc : ':' ∉ c)
    (p : List Char) :
    replaceFirstColonAux (c ++ ':' :: p) = c ++ '/' :: p := by
  induction c with
  | nil => simp [replaceFirstColonAux]
  | cons a c ih =>
    have ha : a ≠ ':' := fun h => hc (h ▸ List.mem_cons_self a c)
    have hc' : ':' ∉ c := fun h => hc (List.mem_cons_of_mem a h)
    simp [replaceFirstColonAux, ha, ih hc']

/-- C7: for a channel name `c` that contains no colon of its own, a wire
channel `c:p` and a registry key `c/p` resolve to the same callback list:
the exact lookup of the colon form misses, the router rewrites the first
colon to a slash, and both representations reach the handlers registered
under the slash key. -/
theorem route_colon_slash_equiv (st : WSState) (c p : String)
    (cbs : List Nat)
    (hc : ':' ∉ c.data)
    (hslash : mapGet st.subscriptions (c ++ "/" ++ p) = some cbs)
    (hnoshadow : mapGet st.subscriptions (c ++ ":" ++ p) = none) :
    routeLookup st.subscriptions (c ++ ":" ++ p) = some cbs ∧
    routeLookup st.subscriptions (c ++ "/" ++ p) = some cbs := by
  have hdataC : (c ++ ":" ++ p).data = c.data ++ ':' :: p.data := by
    simp [String.data_append]
  have hdataS : (c ++ "/" ++ p).data = c.data ++ '/' :: p.data := by
    simp [String.data_append]
  have hcontains : containsColon (c ++ ":" ++ p) = true := by
    rw [containsColon, hdataC]
    simp [List.contains]
  have hrepl : replaceFirstColon (c ++ ":" ++ p) = c ++ "/" ++ p := by
    rw [replaceFirstColon, hdataC, replaceFirstColonAux_sep c.data hc p.data,
      ← hdataS]
  constructor
  · rw [routeLookup, hnoshadow]
    simp [hcontains, hrepl, hslash]
  · rw [routeLookup, hslash]

/-- Witness for C7 at a concrete input: registry `{order_book/1 ↦ [0]}`,
inbound channel `order_book:1`. -/
theorem route_colon_slash_equiv_witness :
    routeLookup [("order_book/1", [0])] ("order_book" ++ ":" ++ "1") =
      some [0] ∧
    routeLookup [("order_book/1", [0])] ("order_book" ++ "/" ++ "1") =
      some [0] :=
  route_colon_slash_equiv
    { mkLighterWS none with subscriptions := [("order_book/1", [0])] }
    "order_book" "1" [0] (by decide) (by decide) (by decide)

/-- C8 (amended): on `auth_failed` or `auth_error` the client only clears
its `isAuthenticated` flag; it produces no effect at all — no token-refresh
attempt, no auth-status report, no frame — and leaves every other field of
the state unchanged. -/
theorem auth_failed_only_clears_flag (st : WSState) (m : InMsg) (now : Int)
    (h : m.type = some "auth_failed" ∨ m.type = some "auth_error") :
    handleMessage st m now = ({ st with isAuthenticated := false }, []) ∧
    countRefreshAttempts (handleMessage st m now).2 = 0 := by
  rcases h with h | h <;>
    simp [handleMessage, h, countRefreshAttempts]

/-- A connected, authenticated client holding a token. -/
def c8AuthedState : WSState :=
  { mkLighterWS (some "tok") with isConnected := true,
                                  isAuthenticated := true }

/-- Witness for C8 (amended) at a concrete input: an authenticated client
receiving `{"type":"auth_failed"}`. -/
theorem auth_failed_only_clears_flag_witness :
    handleMessage c8AuthedState { type := some "auth_failed" } 0 =
      ({ c8AuthedState with isAuthenticated := false }, []) ∧
    countRefreshAttempts
      (handleMessage c8AuthedState { type := some "auth_failed" } 0).2 = 0 :=
  auth_failed_only_clears_flag c8AuthedState
    { type := some "auth_failed" } 0 (Or.inl rfl)

/-- Counterexample to C8 as stated: on receiving `auth_failed` the client
performs no token-refresh attempt (zero, not exactly one) and produces no
effect whatsoever — no auth-status callback is invoked. -/
theorem auth_failed_no_refresh_cex :
    (handleMessage c8AuthedState { type := some "auth_failed" } 0).2 = [] ∧
    countRefreshAttempts
      (handleMessage c8AuthedState { type := some "auth_failed" } 0).2 ≠ 1 := by
  decide
